import Mathlib

set_option maxHeartbeats 1000000

/-! Shallow embedding of the api repository (Helpers.py, Parameters.py,
Comment.py, Submission.py).  Definitions are translated from the source
files; the theorems at the end settle the specification claims. -/

deriving instance DecidableEq for Except

/-- Python exception values that the embedded code can raise. -/
inductive PyError where
  | valueError (msg : String)
  | typeError (msg : String)
  | zeroDivisionError
  deriving DecidableEq

/-- The base-36 alphabet of Helpers.base36encode (Helpers.py line 30). -/
def base36alphabet : List Char := "0123456789abcdefghijklmnopqrstuvwxyz".data

/-- Digit character for a value below 36: alphabet[i]. -/
def alphaChar (i : Nat) : Char := base36alphabet.getD i '?'

/-- Big-endian base-36 digit characters of n, empty for 0: the while-loop of
Helpers.base36encode (Helpers.py lines 57-59). -/
def base36digits (n : Nat) : List Char :=
  if h : n = 0 then []
  else base36digits (n / 36) ++ [alphaChar (n % 36)]
termination_by n
decreasing_by exact Nat.div_lt_self (Nat.pos_of_ne_zero h) (by omega)

/-- Helpers.base36encode (Helpers.py lines 30-61): sign handling for negative
input, single-character fast path for magnitudes below 36, else the divmod
loop.  For integer input the Python function never raises; negative numbers
come out with a "-" sign. -/
def base36encode (number : Int) : String :=
  (if number < 0 then "-" else "") ++
    (if number.natAbs < 36 then String.mk [alphaChar number.natAbs]
     else String.mk (base36digits number.natAbs))

/-- Value of one base-36 digit character, as accepted by Python int(s, 36)
(case-insensitive). -/
def digitVal36 (c : Char) : Option Nat :=
  if '0' ≤ c ∧ c ≤ '9' then some (c.toNat - '0'.toNat)
  else if 'a' ≤ c ∧ c ≤ 'z' then some (c.toNat - 'a'.toNat + 10)
  else if 'A' ≤ c ∧ c ≤ 'Z' then some (c.toNat - 'A'.toNat + 10)
  else none

/-- Accumulating base-36 evaluation of a digit string. -/
def base36valAux (acc : Nat) : List Char → Option Nat
  | [] => some acc
  | c :: cs =>
    match digitVal36 c with
    | some d => base36valAux (36 * acc + d) cs
    | none => none

/-- Magnitude of a base-36 numeral; none when empty or containing a character
outside the alphabet. -/
def base36val (cs : List Char) : Option Nat :=
  match cs with
  | [] => none
  | _ => base36valAux 0 cs

/-- Optional leading sign, as accepted by Python int. -/
def stripSign (cs : List Char) : Bool × List Char :=
  match cs with
  | [] => (false, [])
  | c :: rest =>
    if c = '-' then (true, rest)
    else if c = '+' then (false, rest)
    else (false, c :: rest)

/-- Helpers.base36decode (Helpers.py lines 64-74): int(number, 36); raises
ValueError on a string that is not a base-36 numeral. -/
def base36decode (number : String) : Except PyError Int :=
  match base36val (stripSign number.data).2 with
  | some v => .ok (if (stripSign number.data).1 then -(v : Int) else (v : Int))
  | none => .error (.valueError ("invalid literal for int() with base 36: " ++ number))

/-- Value of one decimal digit character. -/
def digitVal10 (c : Char) : Option Nat :=
  if '0' ≤ c ∧ c ≤ '9' then some (c.toNat - '0'.toNat) else none

/-- Accumulating decimal evaluation of a digit string. -/
def base10valAux (acc : Nat) : List Char → Option Nat
  | [] => some acc
  | c :: cs =>
    match digitVal10 c with
    | some d => base10valAux (10 * acc + d) cs
    | none => none

/-- Magnitude of a decimal numeral; none when empty or containing a
non-digit. -/
def base10val (cs : List Char) : Option Nat :=
  match cs with
  | [] => none
  | _ => base10valAux 0 cs

/-- Python int(s) for base 10, as an Option: an optional sign followed by
decimal digits. -/
def pyIntOfString (s : String) : Option Int :=
  match base10val (stripSign s.data).2 with
  | some v => some (if (stripSign s.data).1 then -(v : Int) else (v : Int))
  | none => none

/-- Helpers.looks_like_int (Helpers.py lines 13-27): int(value) succeeds. -/
def looks_like_int (value : String) : Bool := (pyIntOfString value).isSome

/-- Python int(s) for base 10: ValueError when s is not an integer literal. -/
def pyInt (s : String) : Except PyError Int :=
  match pyIntOfString s with
  | some v => .ok v
  | none => .error (.valueError ("invalid literal for int() with base 10: " ++ s))

/-- Python s[0] equality test, s.startswith(c). -/
def pyStartsWith (s : String) (c : Char) : Bool :=
  match s.data with
  | c2 :: _ => c2 = c
  | [] => false

/-- Python str.lower() over the basic latin range, applied character-wise. -/
def pyLower (s : String) : String := String.mk (s.data.map Char.toLower)

/-- One clause of query.bool.filter / query.bool.must_not, as built by
Parameters.py and the handlers. -/
inductive EsFilter where
  | terms (field : String) (values : List String)
  | rangeGt (field : String) (bound : Int)
  | rangeLt (field : String) (bound : Int)
  | termInt (field : String) (value : Int)
  | termStr (field : String) (value : String)
  | simpleQueryString (query : String) (fields : Option (List String))
  | emptyClause
  deriving DecidableEq

/-- The Elasticsearch query document assembled by Parameters.process and the
handlers: query.bool.filter, query.bool.must_not, size and sort. -/
structure EsQuery where
  filter : List EsFilter := []
  must_not : List EsFilter := []
  size : Option Int := none
  sort : List (String × String) := []
  deriving DecidableEq

/-- The raw request parameter bag as the handlers receive it: each recognized
key is either absent or carries a string value (a list for subreddit, author
and fields, which may arrive multi-valued).  Keys are already lower-cased, as
done at Parameters.py line 31. -/
structure RawParams where
  subreddit : Option (List String) := none
  author : Option (List String) := none
  after : Option String := none
  before : Option String := none
  score : Option String := none
  num_comments : Option String := none
  over_18 : Option String := none
  is_video : Option String := none
  stickied : Option String := none
  spoiler : Option String := none
  locked : Option String := none
  contest_mode : Option String := none
  sort_type : Option String := none
  limit : Option String := none
  size : Option String := none
  order : Option String := none
  sort : Option String := none
  frequency : Option String := none
  q : Option String := none

/-- The canonical parameters produced by Parameters.process. -/
structure ProcessedParams where
  after : Option Int
  before : Option Int
  sort_type : String
  size : Int
  sort : String
  frequency : Option String
  deriving DecidableEq

/-- Parameters._parse_time_value (Parameters.py lines 178-209), relative to a
fixed evaluation time now = int(time.time()): an epoch integer string passes
through; otherwise a relative expression value-unit with unit in s, m, h, d;
anything else raises ValueError. -/
def parse_time_value (now : Int) (time_value : String) : Except PyError Int :=
  match pyIntOfString time_value with
  | some n => .ok n
  | none =>
    if time_value.data.length < 2 then
      .error (.valueError ("Invalid time format: " ++ time_value))
    else
      match pyIntOfString (String.mk time_value.data.dropLast) with
      | none => .error (.valueError ("Invalid time format: " ++ time_value))
      | some value =>
        match (time_value.data.getLastD ' ').toLower with
        | 'd' => .ok (now - value * 86400)
        | 'h' => .ok (now - value * 3600)
        | 'm' => .ok (now - value * 60)
        | 's' => .ok (now - value)
        | u => .error (.valueError ("Unknown time unit: " ++ String.mk [u]))

/-- Parameters._process_time_range (Parameters.py lines 95-117): gt filter for
after, lt filter for before.  A parse failure propagates — nothing catches
the ValueError. -/
def process_time_range (now : Int) (after before : Option String) (q : EsQuery) :
    Except PyError (Option Int × Option Int × EsQuery) :=
  match after with
  | some s =>
    match parse_time_value now s with
    | .error e => .error e
    | .ok v =>
      match before with
      | some s2 =>
        match parse_time_value now s2 with
        | .error e => .error e
        | .ok v2 => .ok (some v, some v2,
            { q with filter := q.filter ++
                [EsFilter.rangeGt "created_utc" v, EsFilter.rangeLt "created_utc" v2] })
      | none => .ok (some v, none,
          { q with filter := q.filter ++ [EsFilter.rangeGt "created_utc" v] })
  | none =>
    match before with
    | some s2 =>
      match parse_time_value now s2 with
      | .error e => .error e
      | .ok v2 => .ok (none, some v2,
          { q with filter := q.filter ++ [EsFilter.rangeLt "created_utc" v2] })
    | none => .ok (none, none, q)

/-- Parameters._process_score_filter (Parameters.py lines 120-135).  When the
value matches no branch an empty clause is still appended; int() on the text
after an operator can raise. -/
def process_score_filter (score : Option String) (q : EsQuery) : Except PyError EsQuery :=
  match score with
  | none => .ok q
  | some s =>
    if pyStartsWith s '<' then
      match pyInt (String.mk (s.data.drop 1)) with
      | .error e => .error e
      | .ok v => .ok { q with filter := q.filter ++ [EsFilter.rangeLt "score" v] }
    else if pyStartsWith s '>' then
      match pyInt (String.mk (s.data.drop 1)) with
      | .error e => .error e
      | .ok v => .ok { q with filter := q.filter ++ [EsFilter.rangeGt "score" v] }
    else
      match pyIntOfString s with
      | some v => .ok { q with filter := q.filter ++ [EsFilter.termInt "score" v] }
      | none => .ok { q with filter := q.filter ++ [EsFilter.emptyClause] }

/-- Parameters._process_comment_count_filter (Parameters.py lines 138-153),
identical in shape to the score filter. -/
def process_comment_count_filter (num_comments : Option String) (q : EsQuery) :
    Except PyError EsQuery :=
  match num_comments with
  | none => .ok q
  | some s =>
    if pyStartsWith s '<' then
      match pyInt (String.mk (s.data.drop 1)) with
      | .error e => .error e
      | .ok v => .ok { q with filter := q.filter ++ [EsFilter.rangeLt "num_comments" v] }
    else if pyStartsWith s '>' then
      match pyInt (String.mk (s.data.drop 1)) with
      | .error e => .error e
      | .ok v => .ok { q with filter := q.filter ++ [EsFilter.rangeGt "num_comments" v] }
    else
      match pyIntOfString s with
      | some v => .ok { q with filter := q.filter ++ [EsFilter.termInt "num_comments" v] }
      | none => .ok { q with filter := q.filter ++ [EsFilter.emptyClause] }

/-- One boolean flag of Parameters._process_boolean_filters (Parameters.py
lines 156-175): true/1 and false/0 compile to a term filter, anything else is
skipped with a warning. -/
def boolean_filter (condition : String) (value : Option String) : List EsFilter :=
  match value with
  | none => []
  | some v =>
    if pyLower v = "true" ∨ v = "1" then [EsFilter.termStr condition "true"]
    else if pyLower v = "false" ∨ v = "0" then [EsFilter.termStr condition "false"]
    else []

/-- Parameters._process_boolean_filters over the six named flags, in source
order. -/
def process_boolean_filters (p : RawParams) (q : EsQuery) : EsQuery :=
  { q with filter := q.filter
      ++ boolean_filter "over_18" p.over_18
      ++ boolean_filter "is_video" p.is_video
      ++ boolean_filter "stickied" p.stickied
      ++ boolean_filter "spoiler" p.spoiler
      ++ boolean_filter "locked" p.locked
      ++ boolean_filter "contest_mode" p.contest_mode }

/-- The limit alias: limit overrides size when present (Parameters.py lines
63-65). -/
def effective_size (limit size : Option String) : Option String :=
  match limit with
  | some l => some l
  | none => size

/-- Size normalization (Parameters.py lines 63-72): a numeric value becomes
min(500, int(value)) — capped above only; otherwise the default 25. -/
def size_value (limit size : Option String) : Int :=
  match effective_size limit size with
  | none => 25
  | some v =>
    match pyIntOfString v with
    | none => 25
    | some n => min 500 n

/-- The order alias: a present order is lower-cased and overrides sort
(Parameters.py lines 74-76). -/
def effective_sort (order sort : Option String) : Option String :=
  match order with
  | some o => some (pyLower o)
  | none => sort

/-- Sort direction (Parameters.py lines 74-84): default desc; any supplied
value is merely lower-cased, never validated. -/
def sort_value (order sort : Option String) : String :=
  match effective_sort order sort with
  | none => "desc"
  | some s => pyLower s

/-- Sort field (Parameters.py lines 57-61). -/
def sort_type_value (sort_type : Option String) : String :=
  match sort_type with
  | some s => pyLower s
  | none => "created_utc"

/-- Frequency validation (Parameters.py lines 87-90). -/
def frequency_value (frequency : Option String) : Option String :=
  match frequency with
  | some v =>
    if pyLower v = "second" ∨ pyLower v = "minute" ∨ pyLower v = "hour" ∨
        pyLower v = "day" ∨ pyLower v = "week" ∨ pyLower v = "month" then
      some (pyLower v)
    else none
  | none => none

/-- Subreddit and author term filters (Parameters.py lines 34-43), values
lower-cased. -/
def term_filters (p : RawParams) (q : EsQuery) : EsQuery :=
  let q1 := match p.subreddit with
    | some vs => { q with filter := q.filter ++
        [EsFilter.terms "subreddit" (vs.map pyLower)] }
    | none => q
  match p.author with
  | some vs => { q1 with filter := q1.filter ++
      [EsFilter.terms "author" (vs.map pyLower)] }
  | none => q1

/-- Parameters.process (Parameters.py lines 19-92): filters, then defaults
and aliases for sort_type, size, sort and frequency. -/
def process (now : Int) (p : RawParams) (q : EsQuery) :
    Except PyError (ProcessedParams × EsQuery) :=
  match process_time_range now p.after p.before (term_filters p q) with
  | .error e => .error e
  | .ok tr =>
    match process_score_filter p.score tr.2.2 with
    | .error e => .error e
    | .ok q1 =>
      match process_comment_count_filter p.num_comments q1 with
      | .error e => .error e
      | .ok q2 =>
        .ok (⟨tr.1, tr.2.1, sort_type_value p.sort_type, size_value p.limit p.size,
              sort_value p.order p.sort, frequency_value p.frequency⟩,
          { process_boolean_filters p q2 with
              size := some (size_value p.limit p.size),
              sort := (process_boolean_filters p q2).sort ++
                [(sort_type_value p.sort_type, sort_value p.order p.sort)] })

/-- One HTTP GET against Elasticsearch:
requests.get(uri, data=json.dumps(q), timeout=30). -/
structure EsRequest where
  uri : String
  body : EsQuery
  timeout : Nat
  deriving DecidableEq

/-- Outcome of one transmission: the response text on success, or a
requests.RequestException (transport failure or raise_for_status on a
non-success status). -/
inductive NetResult where
  | ok (text : String)
  | err (msg : String)
  deriving DecidableEq

/-- The terminal executor failure, exceptions.ElasticsearchError — the
BackendUnavailable error of the specification. -/
inductive EsError where
  | elasticsearchError (msg : String)
  deriving DecidableEq

/-- CommentSearch._execute_search (Comment.py lines 320-335) and the identical
SubmissionSearch._execute_search (Submission.py lines 293-308): send the
document to the primary uri; on any failure retransmit the same document once
to the fallback endpoint with the same timeout; on a second failure raise
ElasticsearchError.  The first component records the requests actually
transmitted, in order. -/
def execute_search (net : EsRequest → NetResult) (es_fallback es_index uri : String)
    (q : EsQuery) : List EsRequest × Except EsError String :=
  match net ⟨uri, q, 30⟩ with
  | .ok text => ([⟨uri, q, 30⟩], .ok text)
  | .err _ =>
    match net ⟨es_fallback ++ es_index, q, 30⟩ with
    | .ok text => ([⟨uri, q, 30⟩, ⟨es_fallback ++ es_index, q, 30⟩], .ok text)
    | .err e2 => ([⟨uri, q, 30⟩, ⟨es_fallback ++ es_index, q, 30⟩],
        .error (.elasticsearchError ("Failed to connect to Elasticsearch: " ++ e2)))

/-- A comment row as stored in PostgreSQL: the identifier fields that
CommentSearch.get_ids rewrites. -/
structure PgComment where
  id : Int
  parent_id : Option Int
  link_id : Int
  subreddit_id : Option Int

/-- The identifier fields of a comment record after output normalization. -/
structure OutComment where
  id : String
  parent_id : String
  link_id : String
  subreddit_id : Option String
  deriving DecidableEq

/-- CommentSearch.get_ids row normalization (Comment.py lines 100-118):
parent_id gets t3_ plus the encoded link_id when absent or equal to link_id,
else t1_ plus the encoded parent_id; link_id always gets t3_. -/
def normalize_comment_pg (c : PgComment) : OutComment :=
  { id := base36encode c.id
    parent_id :=
      match c.parent_id with
      | none => "t3_" ++ base36encode c.link_id
      | some p =>
        if p = c.link_id then "t3_" ++ base36encode c.link_id
        else "t1_" ++ base36encode p
    link_id := "t3_" ++ base36encode c.link_id
    subreddit_id := c.subreddit_id.map (fun s => "t5_" ++ base36encode s) }

/-- An Elasticsearch comment hit: the identifier fields of _source (parent_id
may be absent) together with the document _id. -/
structure EsCommentSource where
  link_id : Int
  parent_id : Option Int
  subreddit_id : Int

/-- CommentSearch.do_elasticsearch hit normalization (Comment.py lines
135-146): a present parent_id always gets the t1_ prefix — there is no
comparison with link_id on this path; an absent one is replaced by the
t3_-prefixed link_id. -/
def normalize_comment_es (hit_id : Int) (s : EsCommentSource) : OutComment :=
  { id := base36encode hit_id
    link_id := "t3_" ++ base36encode s.link_id
    parent_id :=
      match s.parent_id with
      | some p => "t1_" ++ base36encode p
      | none => "t3_" ++ base36encode s.link_id
    subreddit_id := some ("t5_" ++ base36encode s.subreddit_id) }

/-- Stated from the specification for comparison (spec 4.5): link_id always
t3_; parent_id is t3_ plus the encoded link_id when absent or equal to
link_id, else t1_ plus the encoded parent_id. -/
def spec_parent_link_rule (parent_id : Option Int) (link_id : Int) (out : OutComment) : Prop :=
  out.link_id = "t3_" ++ base36encode link_id ∧
  out.parent_id =
    (match parent_id with
     | none => "t3_" ++ base36encode link_id
     | some p =>
       if p = link_id then "t3_" ++ base36encode link_id
       else "t1_" ++ base36encode p)

/-- An incoming significant_terms bucket: key with the foreground and
background document counts reported by Elasticsearch. -/
structure SigBucketIn where
  key : String
  doc_count : Nat
  bg_count : Nat
  deriving DecidableEq

/-- A subreddit bucket after aggregation post-processing, carrying the
derived score. -/
structure SigBucketOut where
  key : String
  doc_count : Nat
  bg_count : Nat
  score : ℚ
  deriving DecidableEq

/-- Descending-score ordering used for sorted(..., key=score, reverse=True). -/
def scoreGe (a b : SigBucketOut) : Prop := b.score ≤ a.score

instance : DecidableRel scoreGe := fun a b => inferInstanceAs (Decidable (b.score ≤ a.score))

instance : IsTotal SigBucketOut scoreGe := ⟨fun a b => le_total b.score a.score⟩

instance : IsTrans SigBucketOut scoreGe := ⟨fun _ _ _ h1 h2 => le_trans h2 h1⟩

/-- A Python for-loop that builds a list and may raise. -/
def mapExcept {α β : Type} (f : α → Except PyError β) : List α → Except PyError (List β)
  | [] => .ok []
  | a :: l =>
    match f a with
    | .error e => .error e
    | .ok b =>
      match mapExcept f l with
      | .error e => .error e
      | .ok bs => .ok (b :: bs)

/-- bucket doc_count divided by bucket bg_count; Python raises
ZeroDivisionError when bg_count is 0. -/
def bucket_score (b : SigBucketIn) : Except PyError ℚ :=
  if b.bg_count = 0 then .error .zeroDivisionError
  else .ok ((b.doc_count : ℚ) / (b.bg_count : ℚ))

/-- Scoring of one subreddit bucket on the comment path (Comment.py lines
188-189): the exact ratio. -/
def score_comment_bucket (b : SigBucketIn) : Except PyError SigBucketOut :=
  match bucket_score b with
  | .error e => .error e
  | .ok s => .ok ⟨b.key, b.doc_count, b.bg_count, s⟩

/-- Round half to even at an integer, as Python round does. -/
def roundHalfEven (x : ℚ) : ℤ :=
  if x - ⌊x⌋ < 1 / 2 then ⌊x⌋
  else if 1 / 2 < x - ⌊x⌋ then ⌊x⌋ + 1
  else if ⌊x⌋ % 2 = 0 then ⌊x⌋ else ⌊x⌋ + 1

/-- Python round(x, 5) on exact rationals. -/
def pyRound5 (x : ℚ) : ℚ := (roundHalfEven (x * 100000) : ℚ) / 100000

/-- Scoring of one subreddit bucket on the submission path (Submission.py
line 139): the ratio rounded to 5 decimal places. -/
def score_submission_bucket (b : SigBucketIn) : Except PyError SigBucketOut :=
  match bucket_score b with
  | .error e => .error e
  | .ok s => .ok ⟨b.key, b.doc_count, b.bg_count, pyRound5 s⟩

/-- CommentSearch._process_aggregations, subreddit branch (Comment.py lines
186-194): score every bucket, then a stable descending sort by score. -/
def process_subreddit_agg_comment (buckets : List SigBucketIn) :
    Except PyError (List SigBucketOut) :=
  match mapExcept score_comment_bucket buckets with
  | .error e => .error e
  | .ok scored => .ok (scored.insertionSort scoreGe)

/-- SubmissionSearch._process_aggregations, subreddit branch (Submission.py
lines 136-144): rounded score, same descending sort. -/
def process_subreddit_agg_submission (buckets : List SigBucketIn) :
    Except PyError (List SigBucketOut) :=
  match mapExcept score_submission_bucket buckets with
  | .error e => .error e
  | .ok scored => .ok (scored.insertionSort scoreGe)

/-- A link_id terms bucket from Elasticsearch.  has_score models the score
key being present (never the case for a terms aggregation, but Comment.py
line 214 checks for it and would then recompute doc_count / bg_count). -/
structure LinkBucketIn where
  key : Int
  doc_count : Nat
  bg_count : Nat
  has_score : Bool
  deriving DecidableEq

/-- The submission metadata resolved for a link_id bucket. -/
structure SubmissionRec where
  id : String
  created_utc : Int
  permalink : String
  deriving DecidableEq

/-- A retained link_id bucket with its attached submission data and derived
full permalink. -/
structure LinkBucketOut where
  key : Int
  doc_count : Nat
  score : Option ℚ
  data : SubmissionRec
  full_link : String
  deriving DecidableEq

/-- Dictionary lookup submission_data[key]. -/
def dictFind (d : List (Int × SubmissionRec)) (k : Int) : Option SubmissionRec :=
  match d with
  | [] => none
  | (k2, v) :: rest => if k2 = k then some v else dictFind rest k

/-- Score recomputation of one link_id bucket (Comment.py lines 213-216). -/
def link_bucket_score (b : LinkBucketIn) : Except PyError (LinkBucketIn × Option ℚ) :=
  if b.has_score then
    match bucket_score ⟨"", b.doc_count, b.bg_count⟩ with
    | .error e => .error e
    | .ok s => .ok (b, some s)
  else .ok (b, none)

/-- CommentSearch._process_aggregations, link_id branch (Comment.py lines
210-231).  after_param is self.params["after"]: after Parameters.process the
key always exists, holding None when the request had no after parameter, and
int(None) raises TypeError.  submission_data is the mapping returned by the
get_submissions_from_es lookup.  A bucket is retained exactly when its key
resolves and the resolved submission's created_utc is strictly greater than
after; retained buckets get the submission attached as data with the derived
full permalink. -/
def process_link_id_agg (buckets : List LinkBucketIn)
    (submission_data : List (Int × SubmissionRec)) (after_param : Option Int) :
    Except PyError (List LinkBucketOut) :=
  match mapExcept link_bucket_score buckets with
  | .error e => .error e
  | .ok scored =>
    match after_param with
    | none => .error (.typeError
        "int() argument must be a string, a bytes-like object or a number, not NoneType")
    | some after =>
      .ok (scored.filterMap (fun bp =>
        match dictFind submission_data bp.1.key with
        | some sub =>
          if after < sub.created_utc then
            some ⟨bp.1.key, bp.1.doc_count, bp.2, sub,
              "https://www.reddit.com" ++ sub.permalink⟩
          else none
        | none => none))

/-- A submission hit from the rs/submissions index: the document _id, and the
_source fields used downstream. -/
structure EsSubmissionHit where
  hit_id : Int
  id : Int
  created_utc : Int
  permalink : String

/-- Helpers.get_submissions_from_es (Helpers.py lines 77-129): query the
primary endpoint, fall back once, and when the fallback also fails return an
empty mapping instead of raising; successful hits are keyed by their base-10
id with the id field re-encoded from the document _id. -/
def get_submissions_from_es
    (primary fallback : Except String (List EsSubmissionHit)) :
    List (Int × SubmissionRec) :=
  match primary with
  | .ok hits => hits.map (fun h =>
      (h.id, ⟨base36encode h.hit_id, h.created_utc, h.permalink⟩))
  | .error _ =>
    match fallback with
    | .ok hits => hits.map (fun h =>
        (h.id, ⟨base36encode h.hit_id, h.created_utc, h.permalink⟩))
    | .error _ => []

/-- The visible outcome of CommentSearch.on_get (Comment.py lines 39-69): any
exception raised while handling the request is caught there and turned into
the HTTP 500 error envelope. -/
inductive RequestOutcome where
  | success
  | failure (status : Nat) (error message : String)
  deriving DecidableEq

/-- Python str(e) for the embedded exceptions. -/
def pyErrMsg : PyError → String
  | .valueError m => m
  | .typeError m => m
  | .zeroDivisionError => "division by zero"

/-- The comment search request path relevant to parameter handling
(Comment.py on_get, then search: build the q filter, Parameters.process,
then _execute_search with failover); on_get maps any raised exception to the
500 envelope. -/
def comment_search_request (now : Int) (p : RawParams)
    (net : EsRequest → NetResult) (es_primary es_fallback : String) : RequestOutcome :=
  match process now p
      { filter := match p.q with
          | some qs => [EsFilter.simpleQueryString qs (some ["body"])]
          | none => [] } with
  | .error e => .failure 500 "Internal server error" (pyErrMsg e)
  | .ok pq =>
    match (execute_search net es_fallback "/rc/comments/_search"
        (es_primary ++ "/rc/comments/_search") pq.2).2 with
    | .error (.elasticsearchError m) => .failure 500 "Internal server error" m
    | .ok _ => .success

theorem digitVal36_alphaChar : ∀ i : Fin 36, digitVal36 (alphaChar i) = some i := by
  decide

theorem alphaChar_ne_sign : ∀ i : Fin 36, alphaChar i ≠ Char.ofNat 45 ∧ alphaChar i ≠ Char.ofNat 43 := by
  decide

theorem base36valAux_append (l1 l2 : List Char) :
    ∀ acc, base36valAux acc (l1 ++ l2) =
      match base36valAux acc l1 with
      | some a => base36valAux a l2
      | none => none := by
  induction l1 with
  | nil => intro acc; rfl
  | cons c cs ih =>
    intro acc
    simp only [List.cons_append, base36valAux]
    cases digitVal36 c with
    | some d => exact ih _
    | none => rfl

theorem base36digits_valAux (n : Nat) (hn : n ≠ 0) :
    ∀ acc, base36valAux acc (base36digits n) =
      some (acc * 36 ^ (base36digits n).length + n) := by
  induction n using Nat.strong_induction_on with
  | _ n ih =>
    intro acc
    rw [base36digits, dif_neg hn]
    by_cases h36 : n / 36 = 0
    · have hlt : n < 36 := by omega
      have hmod : n % 36 = n := Nat.mod_eq_of_lt hlt
      rw [base36digits, dif_pos h36]
      simp only [List.nil_append, List.length_singleton, base36valAux, hmod,
        digitVal36_alphaChar ⟨n, hlt⟩]
      simp [base36valAux]
      ring
    · have hdiv : n / 36 < n := Nat.div_lt_self (Nat.pos_of_ne_zero hn) (by omega)
      rw [base36valAux_append]
      rw [ih (n / 36) hdiv h36 acc]
      have hm : n % 36 < 36 := Nat.mod_lt _ (by omega)
      simp only [base36valAux, digitVal36_alphaChar ⟨n % 36, hm⟩]
      simp only [List.length_append, List.length_singleton]
      rw [pow_succ]
      have hmul : acc * (36 ^ (base36digits (n / 36)).length * 36)
          = acc * 36 ^ (base36digits (n / 36)).length * 36 := by ring
      rw [hmul]
      generalize acc * 36 ^ (base36digits (n / 36)).length = A
      show some (36 * (A + n / 36) + n % 36) = some (A * 36 + n)
      congr 1
      omega

theorem base36digits_mem_ne_sign (n : Nat) :
    ∀ c ∈ base36digits n, c ≠ Char.ofNat 45 ∧ c ≠ Char.ofNat 43 := by
  induction n using Nat.strong_induction_on with
  | _ n ih =>
    intro c hc
    rw [base36digits] at hc
    split at hc
    · simp at hc
    · rename_i hn
      rcases List.mem_append.mp hc with h | h
      · exact ih (n / 36) (Nat.div_lt_self (Nat.pos_of_ne_zero hn) (by omega)) c h
      · have hm : n % 36 < 36 := Nat.mod_lt _ (by omega)
        simp only [List.mem_singleton] at h
        subst h
        exact alphaChar_ne_sign ⟨n % 36, hm⟩

theorem base36digits_ne_nil (n : Nat) (hn : n ≠ 0) : base36digits n ≠ [] := by
  rw [base36digits, dif_neg hn]
  simp

theorem stripSign_no_sign (c : Char) (rest : List Char)
    (h1 : c ≠ Char.ofNat 45) (h2 : c ≠ Char.ofNat 43) :
    stripSign (c :: rest) = (false, c :: rest) := by
  have e1 : c = Char.ofNat 45 ↔ False := iff_false_intro h1
  have e2 : c = Char.ofNat 43 ↔ False := iff_false_intro h2
  have hm : ('-' : Char) = Char.ofNat 45 := by decide
  have hp : ('+' : Char) = Char.ofNat 43 := by decide
  simp [stripSign, hm, hp, h1, h2]

theorem base36val_of_digits (n : Nat) (hn : n ≠ 0) :
    base36val (base36digits n) = some n := by
  have hne := base36digits_ne_nil n hn
  have hval := base36digits_valAux n hn 0
  cases hd : base36digits n with
  | nil => exact absurd hd hne
  | cons c cs =>
    show base36valAux 0 (c :: cs) = some n
    rw [← hd, hval]
    simp

@[simp]
theorem string_nil_append (s : String) : "" ++ s = s := rfl

theorem base36decode_mk (cs : List Char) (v : Nat)
    (hne : cs ≠ [])
    (hsign : ∀ c ∈ cs, c ≠ Char.ofNat 45 ∧ c ≠ Char.ofNat 43)
    (hval : base36val cs = some v) :
    base36decode (String.mk cs) = .ok (v : Int) := by
  cases cs with
  | nil => exact absurd rfl hne
  | cons c rest =>
    have hc := hsign c (List.mem_cons_self c rest)
    have hstrip : stripSign (String.mk (c :: rest)).data = (false, c :: rest) :=
      stripSign_no_sign c rest hc.1 hc.2
    unfold base36decode
    rw [hstrip, hval]
    rfl

/-- Claim C3: for every non-negative integer n, decoding the base-36 encoding
of n returns n (Helpers.base36encode / Helpers.base36decode). -/
theorem claim_C3_base36_roundtrip (n : Nat) :
    base36decode (base36encode (n : Int)) = .ok (n : Int) := by
  have hsign : ¬((n : Int) < 0) := not_lt.mpr (Int.natCast_nonneg n)
  have habs : (n : Int).natAbs = n := Int.natAbs_ofNat n
  by_cases h36 : n < 36
  · have henc : base36encode (n : Int) = String.mk [alphaChar n] := by
      simp [base36encode, hsign, habs, h36]
    rw [henc]
    apply base36decode_mk _ n (by simp)
    · intro c hc
      simp only [List.mem_singleton] at hc
      subst hc
      exact alphaChar_ne_sign ⟨n, h36⟩
    · show base36valAux 0 [alphaChar n] = some n
      simp [base36valAux, digitVal36_alphaChar ⟨n, h36⟩]
  · have hn0 : n ≠ 0 := by omega
    have henc : base36encode (n : Int) = String.mk (base36digits n) := by
      simp [base36encode, hsign, habs, h36]
    rw [henc]
    exact base36decode_mk _ n (base36digits_ne_nil n hn0)
      (base36digits_mem_ne_sign n) (base36val_of_digits n hn0)

/-- Counterexample to claim C8: base36encode does not reject negative input —
it returns the sign-prefixed string, here "-1" for -1, and raises nothing. -/
theorem claim_C8_counterexample : base36encode (-1) = "-1" := rfl

/-- Claim C8 (amended): for every negative integer n, base36encode returns
the string "-" followed by the encoding of the magnitude; negative input is
not rejected. -/
theorem claim_C8_amended (n : Int) (hn : n < 0) :
    base36encode n = "-" ++ base36encode (-n) := by
  have h1 : ¬(-n < 0) := by omega
  have h2 : (-n).natAbs = n.natAbs := Int.natAbs_neg n
  by_cases h36 : n.natAbs < 36
  · simp [base36encode, hn, h1, h2, h36]
  · simp [base36encode, hn, h1, h2, h36]

/-- Witness for claim C8's amended theorem at n = -5. -/
theorem claim_C8_witness : base36encode (-5) = "-" ++ base36encode 5 :=
  claim_C8_amended (-5) (by decide)

theorem process_ok_inv (now : Int) (p : RawParams) (q : EsQuery)
    (pq : ProcessedParams × EsQuery) (h : process now p q = .ok pq) :
    pq.1.sort_type = sort_type_value p.sort_type ∧
    pq.1.size = size_value p.limit p.size ∧
    pq.1.sort = sort_value p.order p.sort ∧
    pq.1.frequency = frequency_value p.frequency ∧
    pq.2.size = some (size_value p.limit p.size) := by
  unfold process at h
  cases h1 : process_time_range now p.after p.before (term_filters p q) with
  | error e => rw [h1] at h; exact absurd h (by simp)
  | ok tr =>
    rw [h1] at h
    dsimp only at h
    cases h2 : process_score_filter p.score tr.2.2 with
    | error e => rw [h2] at h; exact absurd h (by simp)
    | ok q1 =>
      rw [h2] at h
      dsimp only at h
      cases h3 : process_comment_count_filter p.num_comments q1 with
      | error e => rw [h3] at h; exact absurd h (by simp)
      | ok q2 =>
        rw [h3] at h
        dsimp only at h
        simp only [Except.ok.injEq] at h
        rw [← h]
        exact ⟨rfl, rfl, rfl, rfl, rfl⟩

theorem size_value_le_500 (limit size : Option String) : size_value limit size ≤ 500 := by
  unfold size_value
  cases effective_size limit size with
  | none => decide
  | some v =>
    dsimp only
    cases pyIntOfString v with
    | none => decide
    | some n => exact min_le_left 500 n

theorem size_value_of_numeric (limit size : Option String) (v : String) (n : Int)
    (hv : effective_size limit size = some v) (hn : pyIntOfString v = some n) :
    size_value limit size = min 500 n := by
  unfold size_value
  rw [hv]
  dsimp only
  rw [hn]

theorem size_value_of_nonnumeric (limit size : Option String) (v : String)
    (hv : effective_size limit size = some v) (hn : pyIntOfString v = none) :
    size_value limit size = 25 := by
  unfold size_value
  rw [hv]
  dsimp only
  rw [hn]

theorem size_value_of_absent (limit size : Option String)
    (hv : effective_size limit size = none) : size_value limit size = 25 := by
  unfold size_value
  rw [hv]

/-- Counterexample to claim C2: a supplied size of "0" is numeric, is not
clamped below, and reaches the canonical parameters and the compiled query
as 0, outside [1,500]. -/
theorem claim_C2_counterexample :
    process 0 { size := some "0" } {} =
      .ok (⟨none, none, "created_utc", 0, "desc", none⟩,
        { filter := [], must_not := [], size := some 0, sort := [("created_utc", "desc")] }) ∧
    ¬(1 ≤ (0 : Int) ∧ (0 : Int) ≤ 500) := ⟨by decide, by decide⟩

/-- Claim C2 (amended): the normalized size is only capped above at 500 (a
numeric value v becomes min 500 v, with no lower clamp, so 0 or negative
values pass through); a non-numeric or absent size (and limit alias) yields
25; the compiled query's size bound copies the canonical size. -/
theorem claim_C2_amended (now : Int) (p : RawParams) (q : EsQuery)
    (pq : ProcessedParams × EsQuery) (h : process now p q = .ok pq) :
    pq.1.size ≤ 500 ∧ pq.2.size = some pq.1.size ∧
    (∀ v n, effective_size p.limit p.size = some v → pyIntOfString v = some n →
      pq.1.size = min 500 n) ∧
    (∀ v, effective_size p.limit p.size = some v → pyIntOfString v = none →
      pq.1.size = 25) ∧
    (effective_size p.limit p.size = none → pq.1.size = 25) := by
  obtain ⟨-, hsz, -, -, hqsz⟩ := process_ok_inv now p q pq h
  refine ⟨?_, ?_, ?_, ?_, ?_⟩
  · rw [hsz]; exact size_value_le_500 p.limit p.size
  · rw [hqsz, hsz]
  · intro v n hv hn
    rw [hsz]
    exact size_value_of_numeric p.limit p.size v n hv hn
  · intro v hv hn
    rw [hsz]
    exact size_value_of_nonnumeric p.limit p.size v hv hn
  · intro hv
    rw [hsz]
    exact size_value_of_absent p.limit p.size hv

/-- Witness for claim C2's amended theorem: limit absent, size "600" caps to
500. -/
theorem claim_C2_witness :
    (500 : Int) ≤ 500 ∧ (some 500 : Option Int) = some 500 ∧
    (∀ v n, effective_size none (some "600") = some v → pyIntOfString v = some n →
      (500 : Int) = min 500 n) ∧
    (∀ v, effective_size none (some "600") = some v → pyIntOfString v = none →
      (500 : Int) = 25) ∧
    (effective_size none (some "600") = none → (500 : Int) = 25) :=
  claim_C2_amended 0 { size := some "600" } {}
    (⟨none, none, "created_utc", 500, "desc", none⟩,
      { filter := [], must_not := [], size := some 500, sort := [("created_utc", "desc")] })
    (by decide)

theorem sort_value_default (order sort : Option String)
    (ho : order = none) (hs : sort = none) : sort_value order sort = "desc" := by
  unfold sort_value effective_sort
  rw [ho, hs]

theorem sort_value_of_order (order sort : Option String) (o : String)
    (ho : order = some o) : sort_value order sort = pyLower (pyLower o) := by
  unfold sort_value effective_sort
  rw [ho]

theorem sort_value_of_sort (order sort : Option String) (s : String)
    (ho : order = none) (hs : sort = some s) : sort_value order sort = pyLower s := by
  unfold sort_value effective_sort
  rw [ho, hs]

/-- Counterexample to claim C9: a supplied sort value outside asc/desc is
passed through (lower-cased only), so the canonical direction is not confined
to the two-element set. -/
theorem claim_C9_counterexample :
    process 0 { sort := some "Sideways" } {} =
      .ok (⟨none, none, "created_utc", 25, "sideways", none⟩,
        { filter := [], must_not := [], size := some 25, sort := [("created_utc", "sideways")] }) ∧
    ¬("sideways" = "asc" ∨ "sideways" = "desc") := ⟨by decide, by decide⟩

/-- Claim C9 (amended): an absent sort/order parameter defaults the direction
to desc, but a supplied value (order taking precedence over sort) is only
lower-cased, never validated against the asc/desc set. -/
theorem claim_C9_amended (now : Int) (p : RawParams) (q : EsQuery)
    (pq : ProcessedParams × EsQuery) (h : process now p q = .ok pq) :
    (p.order = none → p.sort = none → pq.1.sort = "desc") ∧
    (∀ o, p.order = some o → pq.1.sort = pyLower (pyLower o)) ∧
    (p.order = none → ∀ s, p.sort = some s → pq.1.sort = pyLower s) := by
  obtain ⟨-, -, hsd, -, -⟩ := process_ok_inv now p q pq h
  refine ⟨?_, ?_, ?_⟩
  · intro ho hs
    rw [hsd]
    exact sort_value_default p.order p.sort ho hs
  · intro o ho
    rw [hsd]
    exact sort_value_of_order p.order p.sort o ho
  · intro ho s hs
    rw [hsd]
    exact sort_value_of_sort p.order p.sort s ho hs

/-- Witness for claim C9's amended theorem: no sort or order parameter gives
direction desc. -/
theorem claim_C9_witness :
    ((none : Option String) = none → (none : Option String) = none → "desc" = "desc") ∧
    (∀ o, (none : Option String) = some o → "desc" = pyLower (pyLower o)) ∧
    ((none : Option String) = none → ∀ s, (none : Option String) = some s →
      "desc" = pyLower s) :=
  claim_C9_amended 0 {} {}
    (⟨none, none, "created_utc", 25, "desc", none⟩,
      { filter := [], must_not := [], size := some 25, sort := [("created_utc", "desc")] })
    (by decide)

theorem process_time_range_error_after (now : Int) (s : String) (before : Option String)
    (q : EsQuery) (e : PyError) (h : parse_time_value now s = .error e) :
    process_time_range now (some s) before q = .error e := by
  unfold process_time_range
  dsimp only
  rw [h]

theorem process_error_after (now : Int) (p : RawParams) (q : EsQuery) (s : String)
    (e : PyError) (hafter : p.after = some s) (hparse : parse_time_value now s = .error e) :
    process now p q = .error e := by
  unfold process
  rw [hafter, process_time_range_error_after now s p.before (term_filters p q) e hparse]

/-- Counterexample to claim C4: an after value that is neither an epoch
integer nor a relative expression makes the whole request fail with the 500
error envelope — the parameter is not dropped and the request does not
proceed. -/
theorem claim_C4_counterexample :
    comment_search_request 1000 { after := some "banana" } (fun _ => .ok "ok")
      "http://primary" "http://fallback" =
      .failure 500 "Internal server error" "Invalid time format: banana" := by decide

theorem process_time_range_error_before_none (now : Int) (s : String)
    (q : EsQuery) (e : PyError) (h : parse_time_value now s = .error e) :
    process_time_range now none (some s) q = .error e := by
  unfold process_time_range
  dsimp only
  rw [h]

theorem process_time_range_error_before_ok_after (now : Int) (s1 : String) (v1 : Int)
    (s : String) (q : EsQuery) (e : PyError)
    (h1 : parse_time_value now s1 = .ok v1) (h : parse_time_value now s = .error e) :
    process_time_range now (some s1) (some s) q = .error e := by
  unfold process_time_range
  dsimp only
  rw [h1]
  dsimp only
  rw [h]

theorem process_error_before_none (now : Int) (p : RawParams) (q : EsQuery) (s : String)
    (e : PyError) (hafter : p.after = none) (hbefore : p.before = some s)
    (hparse : parse_time_value now s = .error e) :
    process now p q = .error e := by
  unfold process
  rw [hafter, hbefore,
    process_time_range_error_before_none now s (term_filters p q) e hparse]

theorem process_error_before_ok_after (now : Int) (p : RawParams) (q : EsQuery)
    (s1 : String) (v1 : Int) (s : String) (e : PyError)
    (hafter : p.after = some s1) (h1 : parse_time_value now s1 = .ok v1)
    (hbefore : p.before = some s) (hparse : parse_time_value now s = .error e) :
    process now p q = .error e := by
  unfold process
  rw [hafter, hbefore,
    process_time_range_error_before_ok_after now s1 v1 s (term_filters p q) e h1 hparse]

/-- Claim C4 (amended): a malformed after or before value raises a ValueError
that no per-parameter handler catches; it propagates out of
Parameters.process and the whole request fails with the HTTP 500 error
envelope.  Covered cases: a malformed after (processed first, so its error
wins); a malformed before with after absent; and a malformed before with a
well-formed after. -/
theorem claim_C4_amended (now : Int) (net : EsRequest → NetResult)
    (es_primary es_fallback : String) :
    (∀ (p : RawParams) (s msg : String), p.after = some s →
      parse_time_value now s = .error (.valueError msg) →
      comment_search_request now p net es_primary es_fallback =
        .failure 500 "Internal server error" msg) ∧
    (∀ (p : RawParams) (s msg : String), p.after = none → p.before = some s →
      parse_time_value now s = .error (.valueError msg) →
      comment_search_request now p net es_primary es_fallback =
        .failure 500 "Internal server error" msg) ∧
    (∀ (p : RawParams) (s1 : String) (v1 : Int) (s msg : String), p.after = some s1 →
      parse_time_value now s1 = .ok v1 → p.before = some s →
      parse_time_value now s = .error (.valueError msg) →
      comment_search_request now p net es_primary es_fallback =
        .failure 500 "Internal server error" msg) := by
  refine ⟨?_, ?_, ?_⟩
  · intro p s msg hafter hparse
    unfold comment_search_request
    rw [process_error_after now p _ s (.valueError msg) hafter hparse]
    rfl
  · intro p s msg hafter hbefore hparse
    unfold comment_search_request
    rw [process_error_before_none now p _ s (.valueError msg) hafter hbefore hparse]
    rfl
  · intro p s1 v1 s msg hafter h1 hbefore hparse
    unfold comment_search_request
    rw [process_error_before_ok_after now p _ s1 v1 s (.valueError msg)
      hafter h1 hbefore hparse]
    rfl

/-- Witness for claim C4's amended theorem: a malformed after ("zz"), a
malformed before with no after ("yy"), and a malformed before ("yy") behind a
well-formed after ("5"). -/
theorem claim_C4_witness :
    comment_search_request 0 { after := some "zz" } (fun _ => .ok "ok") "hp" "hf" =
      .failure 500 "Internal server error" "Invalid time format: zz" ∧
    comment_search_request 0 { before := some "yy" } (fun _ => .ok "ok") "hp" "hf" =
      .failure 500 "Internal server error" "Invalid time format: yy" ∧
    comment_search_request 0 { after := some "5", before := some "yy" }
        (fun _ => .ok "ok") "hp" "hf" =
      .failure 500 "Internal server error" "Invalid time format: yy" :=
  ⟨(claim_C4_amended 0 (fun _ => .ok "ok") "hp" "hf").1
      { after := some "zz" } "zz" "Invalid time format: zz" rfl (by decide),
   (claim_C4_amended 0 (fun _ => .ok "ok") "hp" "hf").2.1
      { before := some "yy" } "yy" "Invalid time format: yy" rfl rfl (by decide),
   (claim_C4_amended 0 (fun _ => .ok "ok") "hp" "hf").2.2
      { after := some "5", before := some "yy" } "5" 5 "yy" "Invalid time format: yy"
      rfl (by decide) rfl (by decide)⟩

/-- Claim C1: when the primary transmission fails, the executor retransmits
exactly once to the fallback endpoint with the identical query body and the
same 30-unit timeout; if the fallback succeeds its response is returned, and
if it also fails the call ends with the terminal ElasticsearchError (the
spec's BackendUnavailable) — no further attempt is made (the request log has
exactly the two entries). -/
theorem claim_C1_failover (net : EsRequest → NetResult) (es_fallback es_index uri : String)
    (q : EsQuery) (e1 : String) (h1 : net ⟨uri, q, 30⟩ = .err e1) :
    (execute_search net es_fallback es_index uri q).1 =
      [⟨uri, q, 30⟩, ⟨es_fallback ++ es_index, q, 30⟩] ∧
    (∀ text, net ⟨es_fallback ++ es_index, q, 30⟩ = .ok text →
      (execute_search net es_fallback es_index uri q).2 = .ok text) ∧
    (∀ e2, net ⟨es_fallback ++ es_index, q, 30⟩ = .err e2 →
      (execute_search net es_fallback es_index uri q).2 =
        .error (.elasticsearchError ("Failed to connect to Elasticsearch: " ++ e2))) := by
  unfold execute_search
  rw [h1]
  dsimp only
  cases h2 : net ⟨es_fallback ++ es_index, q, 30⟩ with
  | ok text =>
    refine ⟨rfl, ?_, ?_⟩
    · intro t ht
      cases ht
      rfl
    · intro e2 he
      cases he
  | err e2 =>
    refine ⟨rfl, ?_, ?_⟩
    · intro t ht
      cases ht
    · intro e3 he
      cases he
      rfl

/-- Witness for claim C1 with a network that always refuses. -/
theorem claim_C1_witness :
    (execute_search (fun _ => NetResult.err "refused") "hf" "/idx" "hp/idx" {}).1 =
      [⟨"hp/idx", {}, 30⟩, ⟨"hf" ++ "/idx", {}, 30⟩] ∧
    (∀ text, (fun _ => NetResult.err "refused") (⟨"hf" ++ "/idx", {}, 30⟩ : EsRequest) =
        NetResult.ok text →
      (execute_search (fun _ => NetResult.err "refused") "hf" "/idx" "hp/idx" {}).2 =
        .ok text) ∧
    (∀ e2, (fun _ => NetResult.err "refused") (⟨"hf" ++ "/idx", {}, 30⟩ : EsRequest) =
        NetResult.err e2 →
      (execute_search (fun _ => NetResult.err "refused") "hf" "/idx" "hp/idx" {}).2 =
        .error (.elasticsearchError ("Failed to connect to Elasticsearch: " ++ e2))) :=
  claim_C1_failover (fun _ => NetResult.err "refused") "hf" "/idx" "hp/idx" {} "refused" rfl

theorem t1_ne_t3 (a b : String) : "t1_" ++ a ≠ "t3_" ++ b := by
  intro h
  have hd : 't' :: '1' :: '_' :: a.data = 't' :: '3' :: '_' :: b.data :=
    congrArg String.data h
  injection hd with _ h2
  injection h2 with h3 _
  exact absurd h3 (by decide)

/-- Counterexample to claim C5: on the search-result normalization path a
comment whose parent_id equals its link_id (both 5) comes out with prefix
t1_, not the t3_ the rule demands. -/
theorem claim_C5_counterexample :
    ¬ spec_parent_link_rule (some 5) 5 (normalize_comment_es 7 ⟨5, some 5, 2⟩) :=
  fun h => absurd h.2 (by decide)

/-- Claim C5 (amended): on the by-ID retrieval path the prefix rule holds for
every record; on the search-result path link_id always carries t3_, but the
rule holds exactly when parent_id is not equal to link_id — a present
parent_id always gets t1_, even when it equals link_id. -/
theorem claim_C5_amended :
    (∀ c : PgComment, spec_parent_link_rule c.parent_id c.link_id (normalize_comment_pg c)) ∧
    (∀ (hit_id : Int) (s : EsCommentSource),
      (normalize_comment_es hit_id s).link_id = "t3_" ++ base36encode s.link_id ∧
      (spec_parent_link_rule s.parent_id s.link_id (normalize_comment_es hit_id s) ↔
        s.parent_id ≠ some s.link_id)) := by
  constructor
  · intro c
    obtain ⟨cid, pid, lid, sid⟩ := c
    cases pid with
    | none => exact ⟨rfl, rfl⟩
    | some p => exact ⟨rfl, rfl⟩
  · intro hit_id s
    obtain ⟨lid, pid, sid⟩ := s
    refine ⟨rfl, ?_⟩
    cases pid with
    | none =>
      constructor
      · intro _
        simp
      · intro _
        exact ⟨rfl, rfl⟩
    | some p =>
      constructor
      · intro hrule heq
        injection heq with hpl
        subst hpl
        have h2 : "t1_" ++ base36encode p =
            if p = p then "t3_" ++ base36encode p else "t1_" ++ base36encode p := hrule.2
        rw [if_pos rfl] at h2
        exact t1_ne_t3 _ _ h2
      · intro hne
        have hp : p ≠ lid := fun hh => hne (by rw [hh])
        refine ⟨rfl, ?_⟩
        show "t1_" ++ base36encode p =
          if p = lid then "t3_" ++ base36encode lid else "t1_" ++ base36encode p
        rw [if_neg hp]

/-- Witness for claim C5's amended theorem: the rule holds on the search path
when parent_id (4) differs from link_id (9). -/
theorem claim_C5_witness :
    spec_parent_link_rule (some 4) 9 (normalize_comment_es 2 ⟨9, some 4, 1⟩) :=
  ((claim_C5_amended.2 2 ⟨9, some 4, 1⟩).2).mpr (by decide)

theorem mapExcept_ok_mem {α β : Type} (f : α → Except PyError β) :
    ∀ (l : List α) (out : List β), mapExcept f l = .ok out → ∀ b ∈ out, ∃ a ∈ l, f a = .ok b := by
  intro l
  induction l with
  | nil =>
    intro out h b hb
    simp only [mapExcept, Except.ok.injEq] at h
    subst h
    exact absurd hb (by simp)
  | cons a l ih =>
    intro out h b hb
    unfold mapExcept at h
    cases hfa : f a with
    | error e => rw [hfa] at h; exact absurd h (by simp)
    | ok fb =>
      rw [hfa] at h
      dsimp only at h
      cases hml : mapExcept f l with
      | error e => rw [hml] at h; exact absurd h (by simp)
      | ok bs =>
        rw [hml] at h
        dsimp only at h
        simp only [Except.ok.injEq] at h
        subst h
        rcases List.mem_cons.mp hb with hb1 | hb2
        · refine ⟨a, List.mem_cons_self a l, ?_⟩
          rw [hb1]
          exact hfa
        · obtain ⟨a2, ha2, hfa2⟩ := ih bs hml b hb2
          exact ⟨a2, List.mem_cons_of_mem a ha2, hfa2⟩

/-- Claim C7 (amended): each output bucket's score is its own
doc_count/bg_count — exact on the comment path, rounded to 5 decimal places
on the submission path — and both outputs are sorted in non-increasing
(descending but not strictly descending: ties are possible) score order. -/
theorem claim_C7_amended :
    (∀ buckets out, process_subreddit_agg_comment buckets = .ok out →
      (∀ b ∈ out, b.score = (b.doc_count : ℚ) / (b.bg_count : ℚ)) ∧ out.Sorted scoreGe) ∧
    (∀ buckets out, process_subreddit_agg_submission buckets = .ok out →
      (∀ b ∈ out, b.score = pyRound5 ((b.doc_count : ℚ) / (b.bg_count : ℚ))) ∧
        out.Sorted scoreGe) := by
  constructor
  · intro buckets out h
    unfold process_subreddit_agg_comment at h
    cases hm : mapExcept score_comment_bucket buckets with
    | error e => rw [hm] at h; exact absurd h (by simp)
    | ok scored =>
      rw [hm] at h
      dsimp only at h
      simp only [Except.ok.injEq] at h
      subst h
      constructor
      · intro b hb
        have hb2 : b ∈ scored := (List.mem_insertionSort scoreGe).mp hb
        obtain ⟨a, _, hfa⟩ := mapExcept_ok_mem score_comment_bucket buckets scored hm b hb2
        unfold score_comment_bucket bucket_score at hfa
        by_cases hz : a.bg_count = 0
        · rw [if_pos hz] at hfa
          exact absurd hfa (by simp)
        · rw [if_neg hz] at hfa
          dsimp only at hfa
          simp only [Except.ok.injEq] at hfa
          rw [← hfa]
      · exact List.sorted_insertionSort scoreGe scored
  · intro buckets out h
    unfold process_subreddit_agg_submission at h
    cases hm : mapExcept score_submission_bucket buckets with
    | error e => rw [hm] at h; exact absurd h (by simp)
    | ok scored =>
      rw [hm] at h
      dsimp only at h
      simp only [Except.ok.injEq] at h
      subst h
      constructor
      · intro b hb
        have hb2 : b ∈ scored := (List.mem_insertionSort scoreGe).mp hb
        obtain ⟨a, _, hfa⟩ := mapExcept_ok_mem score_submission_bucket buckets scored hm b hb2
        unfold score_submission_bucket bucket_score at hfa
        by_cases hz : a.bg_count = 0
        · rw [if_pos hz] at hfa
          exact absurd hfa (by simp)
        · rw [if_neg hz] at hfa
          dsimp only at hfa
          simp only [Except.ok.injEq] at hfa
          rw [← hfa]
      · exact List.sorted_insertionSort scoreGe scored

/-- Counterexample to claim C7: on the submission path two buckets with
doc_count 1 and bg_count 3 get score 33333/100000 (the 5-decimal rounding of
1/3, not the exact ratio), and with equal scores the output is not strictly
descending. -/
theorem pyRound5_third : pyRound5 ((1 : ℚ) / 3) = 33333 / 100000 := by
  unfold pyRound5 roundHalfEven
  have hf : ⌊(1 : ℚ) / 3 * 100000⌋ = 33333 := by
    norm_num [Int.floor_eq_iff]
  rw [hf]
  norm_num

theorem eval_agg_submission_pair :
    process_subreddit_agg_submission [⟨"a", 1, 3⟩, ⟨"b", 1, 3⟩] =
      .ok [⟨"a", 1, 3, 33333 / 100000⟩, ⟨"b", 1, 3, 33333 / 100000⟩] := by
  norm_num [process_subreddit_agg_submission, mapExcept, score_submission_bucket,
    bucket_score, pyRound5_third, List.insertionSort, List.orderedInsert, scoreGe]

theorem claim_C7_counterexample :
    process_subreddit_agg_submission [⟨"a", 1, 3⟩, ⟨"b", 1, 3⟩] =
      .ok [⟨"a", 1, 3, 33333 / 100000⟩, ⟨"b", 1, 3, 33333 / 100000⟩] ∧
    (33333 / 100000 : ℚ) ≠ (1 : ℚ) / 3 ∧
    ¬ List.Chain' (fun x y : SigBucketOut => y.score < x.score)
        [⟨"a", 1, 3, 33333 / 100000⟩, ⟨"b", 1, 3, 33333 / 100000⟩] := by
  refine ⟨eval_agg_submission_pair, by norm_num, ?_⟩
  simp only [List.chain'_cons, List.chain'_singleton, and_true]
  norm_num

theorem pyRound5_half : pyRound5 ((1 : ℚ) / 2) = 1 / 2 := by
  unfold pyRound5 roundHalfEven
  have hf : ⌊(1 : ℚ) / 2 * 100000⌋ = 50000 := by
    norm_num [Int.floor_eq_iff]
  rw [hf]
  norm_num

theorem eval_agg_comment_single :
    process_subreddit_agg_comment [⟨"a", 1, 2⟩] = .ok [⟨"a", 1, 2, 1 / 2⟩] := by
  norm_num [process_subreddit_agg_comment, mapExcept, score_comment_bucket,
    bucket_score, List.insertionSort, List.orderedInsert]

theorem eval_agg_submission_single :
    process_subreddit_agg_submission [⟨"a", 1, 2⟩] = .ok [⟨"a", 1, 2, 1 / 2⟩] := by
  norm_num [process_subreddit_agg_submission, mapExcept, score_submission_bucket,
    bucket_score, pyRound5_half, List.insertionSort, List.orderedInsert]

/-- Witness for claim C7's amended theorem on a one-bucket aggregation. -/
theorem claim_C7_witness :
    ((∀ b ∈ ([⟨"a", 1, 2, 1 / 2⟩] : List SigBucketOut),
        b.score = (b.doc_count : ℚ) / (b.bg_count : ℚ)) ∧
      ([⟨"a", 1, 2, 1 / 2⟩] : List SigBucketOut).Sorted scoreGe) ∧
    ((∀ b ∈ ([⟨"a", 1, 2, 1 / 2⟩] : List SigBucketOut),
        b.score = pyRound5 ((b.doc_count : ℚ) / (b.bg_count : ℚ))) ∧
      ([⟨"a", 1, 2, 1 / 2⟩] : List SigBucketOut).Sorted scoreGe) :=
  ⟨claim_C7_amended.1 [⟨"a", 1, 2⟩] [⟨"a", 1, 2, 1 / 2⟩] eval_agg_comment_single,
   claim_C7_amended.2 [⟨"a", 1, 2⟩] [⟨"a", 1, 2, 1 / 2⟩] eval_agg_submission_single⟩

/-- Claim C6 (code bug): when the request carried no after parameter,
self.params["after"] is None after normalization, and the link_id branch
evaluates int(None), raising TypeError — the default 0 intended by the
preceding after = 0 assignment is unreachable, so the whole request fails
instead of filtering with after = 0. -/
theorem claim_C6_code_bug :
    process_link_id_agg [⟨1, 3, 0, false⟩] [(1, ⟨"a", 100, "/r/x/1"⟩)] none =
      .error (.typeError
        "int() argument must be a string, a bytes-like object or a number, not NoneType") := by
  decide

theorem link_noscore_mapExcept (l : List LinkBucketIn)
    (h : ∀ b ∈ l, b.has_score = false) :
    mapExcept link_bucket_score l = .ok (l.map (fun b => (b, (none : Option ℚ)))) := by
  induction l with
  | nil => rfl
  | cons b l ih =>
    have hb := h b (List.mem_cons_self b l)
    have hih := ih (fun x hx => h x (List.mem_cons_of_mem b hx))
    have hlb : link_bucket_score b = .ok (b, none) := by
      unfold link_bucket_score
      rw [hb]
      rfl
    unfold mapExcept
    rw [hlb, hih]
    rfl

/-- Claim C10: when both backends fail, get_submissions_from_es returns the
empty mapping instead of raising; the link_id post-processing then drops
every bucket and succeeds with an empty list — no BackendUnavailable error
for the enrichment failure (given a present after cursor, the case in which
the branch runs to completion at all; see claim C6). -/
theorem claim_C10_enrichment_failure_silent (e1 e2 : String)
    (buckets : List LinkBucketIn) (a : Int)
    (hscore : ∀ b ∈ buckets, b.has_score = false) :
    get_submissions_from_es (.error e1) (.error e2) = [] ∧
    process_link_id_agg buckets [] (some a) = .ok [] := by
  refine ⟨rfl, ?_⟩
  unfold process_link_id_agg
  rw [link_noscore_mapExcept buckets hscore]
  dsimp only
  have hfm : ∀ l : List (LinkBucketIn × Option ℚ),
      (l.filterMap (fun bp =>
        match dictFind [] bp.1.key with
        | some sub =>
          if a < sub.created_utc then
            some (⟨bp.1.key, bp.1.doc_count, bp.2, sub,
              "https://www.reddit.com" ++ sub.permalink⟩ : LinkBucketOut)
          else none
        | none => none)) = [] := by
    intro l
    induction l with
    | nil => rfl
    | cons x l2 ih =>
      rw [List.filterMap_cons]
      dsimp only [dictFind]
      exact ih
  rw [hfm]

/-- Witness for claim C10 at a concrete failed lookup. -/
theorem claim_C10_witness :
    get_submissions_from_es (.error "conn1") (.error "conn2") = [] ∧
    process_link_id_agg [⟨1, 2, 0, false⟩] [] (some 0) = .ok [] :=
  claim_C10_enrichment_failure_silent "conn1" "conn2" [⟨1, 2, 0, false⟩] 0 (by decide)
